import Mathlib

/-!
Verification of the RULSIF change-detection estimator (rulsif.py).

Shallow embedding conventions:
* Python floats are modelled as exact rationals (`ℚ`); the one place the code
  takes a square root (the median-distance bandwidth heuristic) is modelled in
  `ℝ` with `Real.sqrt`.
* A Python value that may be `None` is modelled as an `Option`.  `numpy`'s NaN
  (produced by `numpy.median` on an empty array) is likewise modelled by `none`:
  both `None == 0.0` and `nan == 0.0` are `False` in Python, which the model
  reflects by `none ≠ some 0`.
* Python exceptions are modelled with `Except PyErr`; an operation that raises
  returns `.error`.
* The Gaussian kernel evaluator (module `kernels`) is outside the repository
  and is specified only by its contract, so it is passed in as an abstract
  total function `KernelFun`; per that contract `kernel.apply(A, B)` has shape
  (columns of A × columns of B) and the core transposes the result.
* `numpy.random` is reseeded with the constant 0 at the start of `train`; the
  stream of `numpy.random.permutation` results after that reseed is passed in
  as an abstract argument `rng` (call index → size → index list).
-/

/-- Python exception kinds raised (or raisable) by the code under scrutiny. -/
inductive PyErr : Type where
  /-- A bare `raise Exception(msg)` — used by `RULSIF.apply` for its two
      configuration checks (rulsif.py:425, rulsif.py:428). -/
  | exception : String → PyErr
  /-- A Python `AttributeError` (e.g. reading a module attribute that does not
      exist, as `numpy.lambdaCandidates` at rulsif.py:351). -/
  | attributeError : String → PyErr
  /-- A Python `TypeError` (e.g. arithmetic on `None`). -/
  | typeError : String → PyErr
  /-- A `scipy.linalg.LinAlgError` from `linalg.solve` on a singular system. -/
  | numericalError : String → PyErr
  /-- A Python `ZeroDivisionError` (e.g. `alpha / N` with `N = 0` at
      rulsif.py:88 when a kernel slice has no columns). -/
  | zeroDivisionError : String → PyErr
  /-- A numpy `ValueError` (shape mismatch in a broadcast or reshape, as in
      `getMedianDistanceBetweenSamples` at rulsif.py:243/245). -/
  | valueError : String → PyErr
deriving DecidableEq

/-- Dense rational matrix, the model of a 2-D numpy float array. -/
abbrev MatQ (m n : ℕ) : Type := Matrix (Fin m) (Fin n) ℚ

/-- The external Gaussian kernel collaborator `GaussianKernel(sigma).apply`:
given the width (a float, or Python `None`/NaN modelled as `none`) and two
sample matrices (dimensions × count), it returns the kernel matrix of shape
(columns of first argument × columns of second argument).  It is out of scope
for the repository, hence abstract. -/
def KernelFun : Type :=
  ∀ (_sigma : Option ℝ) (d n b : ℕ), MatQ d n → MatQ d b → MatQ n b

/-- Mean of a vector, `numpy.mean` of a 1-D array of length `n`. -/
def vecMean {n : ℕ} (v : Fin n → ℚ) : ℚ := (∑ i, v i) / (n : ℚ)

/-- Model of `scipy.linalg.solve(A, b)` (an exact dense linear solve): on a
singular matrix it raises `LinAlgError`, otherwise it returns the unique
solution `A⁻¹ ⬝ b`, here written with the adjugate so the definition is
executable over `ℚ` (`A⁻¹ = det⁻¹ • adjugate A` when `det ≠ 0`). -/
def linalg_solve {k : ℕ} (A : MatQ k k) (b : Fin k → ℚ) :
    Except PyErr (Fin k → ℚ) :=
  if A.det = 0 then .error (.numericalError "singular matrix")
  else .ok (A.det⁻¹ • A.adjugate.mulVec b)

namespace AlphaRelativeDensityRatioEstimator

/-- H_hat term (rulsif.py:80-91): with `K_ref : b × N_ref` and
`K_test : b × N_test`,
`H = (alpha / N_ref) · K_ref·K_refᵀ + ((1 - alpha) / N_test) · K_test·K_testᵀ`. -/
def H_hat {b nr nt : ℕ} (alpha : ℚ) (Kref : MatQ b nr) (Ktest : MatQ b nt) :
    MatQ b b :=
  (alpha / (nr : ℚ)) • (Kref * Kref.transpose) +
    ((1 - alpha) / (nt : ℚ)) • (Ktest * Ktest.transpose)

/-- Shape-checked wrapper for `H_hat`: the divisions `alpha / N_ref` and
`(1 - alpha) / N_test` at rulsif.py:88-89 are evaluated in that order and
raise a `ZeroDivisionError` when the respective kernel matrix has no columns
(as happens for an empty cross-validation training partition, rulsif.py:348);
on non-empty inputs the result is exactly the formula `H_hat`. -/
def H_hat_checked {b nr nt : ℕ} (alpha : ℚ) (Kref : MatQ b nr)
    (Ktest : MatQ b nt) : Except PyErr (MatQ b b) :=
  if nr = 0 then .error (.zeroDivisionError "float division by zero")
  else if nt = 0 then .error (.zeroDivisionError "float division by zero")
  else .ok (H_hat alpha Kref Ktest)

/-- h_hat term (rulsif.py:93-100): `numpy.mean(K_ref, 1)`, the row means of
the reference kernel matrix. -/
def h_hat {b nr : ℕ} (Kref : MatQ b nr) : Fin b → ℚ :=
  fun l => (∑ i, Kref l i) / (nr : ℚ)

/-- theta_hat (rulsif.py:102-111): solve `(H + lambda·I) θ = h` with
`linalg.solve`.  The `lambdaRegularizer` argument is `self.lambdaRegularizer`
at the `apply` call site, which is `None` when never configured nor trained:
`None * numpy.eye(k)` then raises a `TypeError`.  (In the source the identity
is `numpy.eye(kernelBasis)`; at every call site `kernelBasis` equals the
number of rows of `H`, which the typed embedding enforces.) -/
def theta_hat {b : ℕ} (H : MatQ b b) (h : Fin b → ℚ) (lam : Option ℚ) :
    Except PyErr (Fin b → ℚ) :=
  match lam with
  | none => .error (.typeError "unsupported operand types NoneType and ndarray")
  | some l => linalg_solve (H + l • (1 : MatQ b b)) h

/-- Squared-error criterion J (rulsif.py:113-120):
`J = (alpha/2)·mean(g_ref²) + ((1-alpha)/2)·mean(g_test²) - mean(g_ref)`. -/
def J_of_theta {nr nt : ℕ} (alpha : ℚ) (gref : Fin nr → ℚ) (gtest : Fin nt → ℚ) : ℚ :=
  (alpha / 2) * vecMean (fun i => gref i ^ 2) +
    ((1 - alpha) / 2) * vecMean (fun i => gtest i ^ 2) - vecMean gref

/-- Kernel model evaluation (rulsif.py:122-127): `g = Kᵀ ⬝ theta`. -/
def g_of_X_theta {b n : ℕ} (K : MatQ b n) (θ : Fin b → ℚ) : Fin n → ℚ :=
  K.transpose.mulVec θ

/-- AlphaRelativeDensityRatioEstimator.apply (rulsif.py:56-78): build the two
kernel matrices (transposed to basis × count), fit `theta_hat`, and evaluate
the ratio model at both sample sets.  (The source's final `.T` on each ratio
is a no-op on 1-D arrays.) -/
def apply {d nr nt b : ℕ} (kfun : KernelFun) (alpha : ℚ) (sigma : Option ℝ)
    (lam : Option ℚ) (ref : MatQ d nr) (test : MatQ d nt) (centers : MatQ d b) :
    Except PyErr ((Fin nr → ℚ) × (Fin nt → ℚ)) := do
  let Kref := (kfun sigma d nr b ref centers).transpose
  let Ktest := (kfun sigma d nt b test centers).transpose
  let H ← H_hat_checked alpha Kref Ktest
  let θ ← theta_hat H (h_hat Kref) lam
  .ok (g_of_X_theta Kref θ, g_of_X_theta Ktest θ)

end AlphaRelativeDensityRatioEstimator

namespace PearsonRelativeDivergenceEstimator

/-- PearsonRelativeDivergenceEstimator.apply (rulsif.py:165-181): delegate to
the density-ratio estimator, then
`PE = mean(r_ref) - 0.5·(alpha·mean(r_ref²) + (1-alpha)·mean(r_test²)) - 0.5`. -/
def apply {d nr nt b : ℕ} (kfun : KernelFun) (alpha : ℚ) (sigma : Option ℝ)
    (lam : Option ℚ) (ref : MatQ d nr) (test : MatQ d nt) (centers : MatQ d b) :
    Except PyErr (ℚ × (Fin nt → ℚ)) := do
  let (rref, rtest) ←
    AlphaRelativeDensityRatioEstimator.apply kfun alpha sigma lam ref test centers
  .ok (vecMean rref -
        (1 / 2) * (alpha * vecMean (fun i => rref i ^ 2) +
          (1 - alpha) * vecMean (fun i => rtest i ^ 2)) - 1 / 2,
       rtest)

end PearsonRelativeDivergenceEstimator

/-- Orchestrator instance state after `RULSIF.__init__` (rulsif.py:196-220):
`d` is the sample dimension and `c` the column count of the stored center set.
`sigmaWidth` and `lambdaRegularizer` are `none` when the corresponding CLI
option is absent (and, for `sigmaWidth`, also models a NaN width); `kernelBasis`
is always `some` after `__init__` but the field is `Option` because
`RULSIF.apply` tests it against `None`. -/
structure RulsifState (d c : ℕ) : Type where
  alphaConstraint : ℚ
  sigmaWidth : Option ℝ
  lambdaRegularizer : Option ℚ
  kernelBasis : Option ℕ
  crossFolds : ℕ
  gaussianCenters : Option (MatQ d c)

namespace RULSIF

/-- The vector `G = sum((samples * samples), 1)` of rulsif.py:239.  `sum` is
never shadowed in rulsif.py, so this is the Python BUILTIN `sum`, not
`numpy.sum(..., axis=1)`: it iterates the 2-D array over its rows (length-d
vectors) and adds the integer start value 1, yielding the length-d vector
`G[k] = 1 + Σᵢ samples[i,k]²` — 1 plus the column sums of squares, not the
row squared norms. -/
def G_builtinSum {n d : ℕ} (S : MatQ n d) : Fin d → ℚ :=
  fun k => 1 + ∑ i, S i k * S i k

/-- Entry `(i, j)` of `Q + R - 2 * numpy.dot(samples, samples.T)`
(rulsif.py:240-243) in the cases where the broadcast succeeds: `Q` has shape
`(d, n)` with `Q[k,j] = G[k]` and `R` has shape `(n, d)` with `R[i,k] = G[k]`,
so for `d = 1` the broadcast gives `2·G[0] - 2·⟨row i, row j⟩` and for
`d = n` it gives `G[i] + G[j] - 2·⟨row i, row j⟩`.  The final catch-all
branch is unreachable: when neither case applies and `n ≠ 1`, line 243 has
already raised a broadcast `ValueError` (see
`getMedianDistanceBetweenSamples`), and for `n = 1 < d` the entries are
discarded by the reshape `ValueError` at line 245. -/
def corruptDistances {n d : ℕ} (S : MatQ n d) : Fin n → Fin n → ℚ :=
  fun i j =>
    (if hd : d = 1 then 2 * G_builtinSum S ⟨0, by omega⟩
     else if hn : d = n then
       G_builtinSum S (Fin.cast hn.symm i) + G_builtinSum S (Fin.cast hn.symm j)
     else 0)
    - 2 * ∑ k, S i k * S j k

/-- The flattened entries of `distances - numpy.tril(distances)`
(rulsif.py:244-245) kept by the `distances > 0` mask (rulsif.py:247):
`tril` zeroes every entry with `i ≥ j`, so only the strictly-upper-triangle
positive entries survive.  (The Fortran-order reshape only permutes the
entries, which the subsequent median ignores.) -/
def upperPositiveEntries {n d : ℕ} (S : MatQ n d) : List ℚ :=
  (((List.finRange n).flatMap fun i =>
      (List.finRange n).map fun j => if i < j then corruptDistances S i j else 0).filter
    fun x => decide (0 < x))

/-- Model of `numpy.median` on a 1-D array: sort ascending; odd length takes
the middle element, even length averages the two middle ones; on an empty
array numpy emits NaN (with a warning, not an exception), modelled `none`. -/
def npMedian (l : List ℚ) : Option ℚ :=
  if l.length = 0 then none
  else if l.length % 2 = 1 then
    some ((List.insertionSort (fun a b => a ≤ b) l).getD (l.length / 2) 0)
  else
    some (((List.insertionSort (fun a b => a ≤ b) l).getD (l.length / 2 - 1) 0 +
      (List.insertionSort (fun a b => a ≤ b) l).getD (l.length / 2) 0) / 2)

/-- RULSIF.getMedianDistanceBetweenSamples (rulsif.py:223-247): the rows of
`S` are samples.  Because `G` has length d (builtin `sum`, rulsif.py:239),
the broadcast `Q + R` at line 243 raises a `ValueError` unless
`d = n ∨ d = 1 ∨ n = 1`, and for `n = 1 < d` the `(d, d)` result cannot be
reshaped to `(n², 1)` at line 245 (another `ValueError`).  Otherwise the
result is `sqrt(0.5 * median(positive upper entries))`, with `none`
modelling the NaN of an empty selection. -/
noncomputable def getMedianDistanceBetweenSamples {n d : ℕ} (S : MatQ n d) :
    Except PyErr (Option ℝ) :=
  if d = n ∨ d = 1 ∨ n = 1 then
    if n = 1 ∧ 1 < d then
      .error (.valueError "cannot reshape array")
    else
      .ok ((npMedian (upperPositiveEntries S)).map fun (m : ℚ) =>
        Real.sqrt ((1 / 2 : ℝ) * (m : ℝ)))
  else .error (.valueError "operands could not be broadcast together")

/-- Column-wise concatenation `numpy.c_[ref, test]` followed by `.T`
(rulsif.py:255-256): row `i` of the result is column `i` of the combined
sample set. -/
def combinedSamplesT {d nr nt : ℕ} (ref : MatQ d nr) (test : MatQ d nt) :
    MatQ (nr + nt) d :=
  fun i k =>
    if h : (i : ℕ) < nr then ref k ⟨i, h⟩
    else test k ⟨(i : ℕ) - nr, by omega⟩

/-- The float factor grid `[0.6, 0.8, 1, 1.2, 1.4]` (rulsif.py:258). -/
def widthFactors : List ℚ := [3 / 5, 4 / 5, 1, 6 / 5, 7 / 5]

/-- RULSIF.computeGaussianWidthCandidates (rulsif.py:250-258):
`medianDistance * numpy.array([0.6, 0.8, 1, 1.2, 1.4])`; a `ValueError` from
the median step propagates, and each candidate is `none` exactly when the
median distance is NaN. -/
noncomputable def computeGaussianWidthCandidates {d nr nt : ℕ} (ref : MatQ d nr)
    (test : MatQ d nt) : Except PyErr (List (Option ℝ)) :=
  (getMedianDistanceBetweenSamples (combinedSamplesT ref test)).map fun md =>
    widthFactors.map fun (c : ℚ) => md.map fun x => x * (c : ℝ)

/-- RULSIF.generateRegularizationParams (rulsif.py:261-267):
`10.0 ** numpy.array([-3, -2, -1, 0, 1])`. -/
def generateRegularizationParams : List ℚ :=
  [1 / 1000, 1 / 100, 1 / 10, 1, 10]

/-- Column slice `A[:, numpy.r_[0:k]]` for `k ≤ n`. -/
def sliceCols {d n : ℕ} (A : MatQ d n) (k : ℕ) (hk : k ≤ n) : MatQ d k :=
  fun i j => A i ⟨(j : ℕ), lt_of_lt_of_le j.2 hk⟩

/-- RULSIF.generateAllGaussianCenters (rulsif.py:270-275): overwrite
`self.kernelBasis` with the reference column count, then return
`referenceSamples[:, numpy.r_[0:kernelBasis]]`. -/
def generateAllGaussianCenters {d c nr : ℕ} (st : RulsifState d c)
    (ref : MatQ d nr) : RulsifState d c × MatQ d nr :=
  ({ st with kernelBasis := some nr }, sliceCols ref nr le_rfl)

/-- RULSIF.generateGaussianCenters (rulsif.py:298-306): the active strategy is
always `generateAllGaussianCenters` (the `Matrix.show` call is debug printing
with no effect on the result). -/
def generateGaussianCenters {d c nr : ℕ} (st : RulsifState d c)
    (ref : MatQ d nr) : RulsifState d c × MatQ d nr :=
  generateAllGaussianCenters st ref

/-- First index of the minimum of a nonempty vector, the contract of
`numpy.argmin`: among the indices attaining the minimum value, the lowest. -/
def npArgmin {n : ℕ} (v : Fin n → ℚ) (h : 0 < n) : Fin n :=
  (Finset.univ.filter fun i => ∀ j, v i ≤ v j).min' (by
    obtain ⟨i0, -, hmin⟩ :=
      Finset.exists_min_image Finset.univ v ⟨⟨0, h⟩, Finset.mem_univ _⟩
    exact ⟨i0, Finset.mem_filter.mpr
      ⟨Finset.mem_univ _, fun j => hmin j (Finset.mem_univ _)⟩⟩)

/-- The hyperparameter selection tail of RULSIF.computeModelParameters
(rulsif.py:374-379): `min(1)`/`argmin(1)` per sigma row, then `argmin` over
the per-row minima, and the corresponding candidate values.  (`numpy`'s
`.min(1)` value at a row equals the row's value at its `argmin(1)` index.) -/
def selectOptimal {s l : ℕ} (scores : Fin s → Fin l → ℚ)
    (sigmas : Fin s → Option ℝ) (lambdas : Fin l → ℚ)
    (hs : 0 < s) (hl : 0 < l) : Option ℝ × ℚ :=
  let minIdxForLambda : Fin s → Fin l := fun i => npArgmin (scores i) hl
  let minScores : Fin s → ℚ := fun i => scores i (minIdxForLambda i)
  let minIdxForSigma : Fin s := npArgmin minScores hs
  (sigmas minIdxForSigma, lambdas (minIdxForLambda minIdxForSigma))

/-- Reading `numpy.lambdaCandidates` (rulsif.py:351): the `numpy` module has
no attribute of that name (the local variable is `lambdaCandidates`), so the
inner-loop header `numpy.r_[0:numpy.size(numpy.lambdaCandidates)]` raises an
`AttributeError` before any inner iteration runs. -/
def numpy_lambdaCandidates_size : Except PyErr ℕ :=
  .error (.attributeError "module numpy has no attribute lambdaCandidates")

/-- Near-equal-size modulo fold split `floor(r_[0:cols] * folds / cols)`
(rulsif.py:327, rulsif.py:329) at position `i`. -/
def cvSplit (folds cols : ℕ) : ℕ → ℕ := fun i => i * folds / cols

/-- Boolean-mask selection `idxs[mask-over-positions]`: keep `idxs[p]` for the
positions `p` where `keep p` holds. -/
def selIdxs {n : ℕ} (idxs : List (Fin n)) (keep : ℕ → Bool) : List (Fin n) :=
  ((idxs.enum.filter fun p => keep p.1).map Prod.snd)

/-- Column selection `A[:, js]` by an index list. -/
def colsOf {b n : ℕ} (A : MatQ b n) (js : List (Fin n)) : MatQ b js.length :=
  fun i j => A i (js.get j)

/-- Pointwise update of a functional matrix at one entry,
`foldResult[foldIdx, lambdaIdx] = J` (rulsif.py:368). -/
def update2 (f : ℕ → ℕ → ℚ) (i j : ℕ) (v : ℚ) : ℕ → ℕ → ℚ :=
  fun a b => if a = i ∧ b = j then v else f a b

/-- Row update `scores[sigmaIdx, :] = row` (rulsif.py:370). -/
def updateRow (f : ℕ → ℕ → ℚ) (i : ℕ) (row : ℕ → ℚ) : ℕ → ℕ → ℚ :=
  fun a b => if a = i then row b else f a b

/-- Column means over the fold axis, `numpy.mean(foldResult, 0)` of a
`crossFolds × lambdas` matrix (rulsif.py:370). -/
def meanOverFolds (folds : ℕ) (fr : ℕ → ℕ → ℚ) : ℕ → ℚ :=
  fun lj => (∑ f ∈ Finset.range folds, fr f lj) / (folds : ℚ)

/-- One iteration of the fold (middle) loop of RULSIF.computeModelParameters
(rulsif.py:343-370), threading the state `(foldResult, crossValidationScores)`.
It slices the training kernel columns and computes `H_hat`/`h_hat` — the
`H_hat` call raises a `ZeroDivisionError` when a training partition is empty
(rulsif.py:348 reaching the divisions at rulsif.py:88) — and otherwise the
inner-loop header reads `numpy.lambdaCandidates` and raises an
`AttributeError`; the inner-loop body (rulsif.py:353-368) is transcribed
after that read for completeness but is unreachable in Python as in this
model.  The final `.ok` re-assigns the
score row from the fold-result column means (rulsif.py:370, which the source
executes inside the fold loop). -/
def cvFoldBody {b nr nt : ℕ} (alpha : ℚ) (folds : ℕ) (sigmaIdx : ℕ)
    (lambdaCandidates : List ℚ) (Kref : MatQ b nr) (Ktest : MatQ b nt)
    (refIdxs : List (Fin nr)) (testIdxs : List (Fin nt))
    (st : (ℕ → ℕ → ℚ) × (ℕ → ℕ → ℚ)) (foldIdx : ℕ) :
    Except PyErr ((ℕ → ℕ → ℚ) × (ℕ → ℕ → ℚ)) := do
  let KrefTrain := colsOf Kref
    (selIdxs refIdxs fun p => decide (cvSplit folds nr p ≠ foldIdx))
  let KtestTrain := colsOf Ktest
    (selIdxs testIdxs fun p => decide (cvSplit folds nt p ≠ foldIdx))
  let H ← AlphaRelativeDensityRatioEstimator.H_hat_checked alpha KrefTrain KtestTrain
  let h := AlphaRelativeDensityRatioEstimator.h_hat KrefTrain
  let nLam ← numpy_lambdaCandidates_size
  let fr ← (List.range nLam).foldlM (fun fr lambdaIdx => do
      let lam := lambdaCandidates.getD lambdaIdx 0
      let θ ← AlphaRelativeDensityRatioEstimator.theta_hat H h (some lam)
      let KrefVal := colsOf Kref
        (selIdxs refIdxs fun p => decide (cvSplit folds nr p = foldIdx))
      let KtestVal := colsOf Ktest
        (selIdxs testIdxs fun p => decide (cvSplit folds nt p = foldIdx))
      let J := AlphaRelativeDensityRatioEstimator.J_of_theta alpha
        (AlphaRelativeDensityRatioEstimator.g_of_X_theta KrefVal θ)
        (AlphaRelativeDensityRatioEstimator.g_of_X_theta KtestVal θ)
      pure (update2 fr foldIdx lambdaIdx J)) st.1
  .ok (fr, updateRow st.2 sigmaIdx (meanOverFolds folds fr))

/-- One iteration of the sigma (outer) loop of RULSIF.computeModelParameters
(rulsif.py:333-370): rebuild the kernel matrices at the candidate width,
zero-initialise `foldResult`, and run the fold loop. -/
def cvSigmaBody {d nr nt b : ℕ} (kfun : KernelFun) (alpha : ℚ) (folds : ℕ)
    (lambdaCandidates : List ℚ) (sigmaWidths : List (Option ℝ))
    (ref : MatQ d nr) (test : MatQ d nt) (centers : MatQ d b)
    (refIdxs : List (Fin nr)) (testIdxs : List (Fin nt))
    (scores : ℕ → ℕ → ℚ) (sigmaIdx : ℕ) : Except PyErr (ℕ → ℕ → ℚ) := do
  let sigma := sigmaWidths.getD sigmaIdx none
  let Kref := (kfun sigma d nr b ref centers).transpose
  let Ktest := (kfun sigma d nt b test centers).transpose
  let init : ℕ → ℕ → ℚ := fun _ _ => 0
  let res ← (List.range folds).foldlM
    (cvFoldBody alpha folds sigmaIdx lambdaCandidates Kref Ktest refIdxs testIdxs)
    (init, scores)
  .ok res.2

/-- RULSIF.computeModelParameters (rulsif.py:309-381): generate the five sigma
candidates (propagating a `ValueError` from the corrupted width step) and
five lambda candidates, draw the two fold permutations from the (reseeded)
generator, run the sigma × fold × lambda cross-validation loops into the
5 × 5 score matrix, and select the optimal pair by `min`/`argmin`. -/
noncomputable def computeModelParameters {d nr nt b : ℕ} (kfun : KernelFun)
    (rng : ℕ → (n : ℕ) → List (Fin n)) (alpha : ℚ) (folds : ℕ)
    (ref : MatQ d nr) (test : MatQ d nt) (centers : MatQ d b) :
    Except PyErr (Option ℝ × ℚ) := do
  let sigmaWidths ← computeGaussianWidthCandidates ref test
  let lambdaCandidates := generateRegularizationParams
  let refIdxs := rng 0 nr
  let testIdxs := rng 1 nt
  let scores0 : ℕ → ℕ → ℚ := fun _ _ => 0
  let scores ← (List.range sigmaWidths.length).foldlM
    (cvSigmaBody kfun alpha folds lambdaCandidates sigmaWidths ref test centers
      refIdxs testIdxs)
    scores0
  -- the score matrix has shape 5 × 5 (five sigma and five lambda candidates)
  .ok (selectOptimal (s := 5) (l := 5) (fun i j => scores (i : ℕ) (j : ℕ))
    (fun i => sigmaWidths.getD (i : ℕ) none)
    (fun j => lambdaCandidates.getD (j : ℕ) 0)
    (by norm_num) (by norm_num))

/-- Rebuild the state record around a freshly assigned center matrix,
`self.gaussianCenters = centers` (rulsif.py:394); the center column count in
the state's type changes with the assignment. -/
def setCenters {d c nr : ℕ} (st : RulsifState d c) (cen : MatQ d nr) :
    RulsifState d nr :=
  { alphaConstraint := st.alphaConstraint
    sigmaWidth := st.sigmaWidth
    lambdaRegularizer := st.lambdaRegularizer
    kernelBasis := st.kernelBasis
    crossFolds := st.crossFolds
    gaussianCenters := some cen }

/-- RULSIF.train (rulsif.py:385-399).  `numpy.random.seed(0)` resets the
process-wide generator; the post-reseed permutation stream is the `rng`
argument.  The center assignment (and the `kernelBasis` overwrite inside
`generateGaussianCenters`) happens before `computeModelParameters` is called;
an exception from the latter propagates (second component `some e`) with those
mutations already applied, while `sigmaWidth`/`lambdaRegularizer` are assigned
only on success. -/
noncomputable def train {d c nr nt : ℕ} (kfun : KernelFun)
    (rng : ℕ → (n : ℕ) → List (Fin n)) (st : RulsifState d c)
    (ref : MatQ d nr) (test : MatQ d nt) : RulsifState d nr × Option PyErr :=
  let gen := generateGaussianCenters st ref
  let st2 := setCenters gen.1 gen.2
  match computeModelParameters kfun rng st2.alphaConstraint st2.crossFolds
      ref test gen.2 with
  | .error e => (st2, some e)
  | .ok opt =>
    ({ st2 with sigmaWidth := opt.1, lambdaRegularizer := some opt.2 }, none)

/-- RULSIF.apply (rulsif.py:402-435): raise a configuration `Exception` when
the centers or the basis count are Python `None`, or when
`sigmaWidth == 0.0 or lambdaRegularizer == 0.0` — note that in Python a `None`
(or NaN) width compares unequal to `0.0`, which the model renders as
`none ≠ some 0`.  Otherwise delegate to the divergence estimator and return
the score (the ratio-at-test vector is dropped). -/
noncomputable def apply {d c nr nt : ℕ} (kfun : KernelFun)
    (st : RulsifState d c) (ref : MatQ d nr) (test : MatQ d nt) :
    Except PyErr ℚ :=
  match st.gaussianCenters, st.kernelBasis with
  | none, _ => .error (.exception "Missing kernel basis function parameters")
  | some _, none => .error (.exception "Missing kernel basis function parameters")
  | some centers, some _ =>
    if st.sigmaWidth = some 0 ∨ st.lambdaRegularizer = some 0 then
      .error (.exception "Missing model selection parameters")
    else
      (PearsonRelativeDivergenceEstimator.apply kfun st.alphaConstraint
        st.sigmaWidth st.lambdaRegularizer ref test centers).map Prod.fst

end RULSIF

/-- Concrete all-ones kernel collaborator, used to instantiate theorems whose
hypotheses quantify over the abstract kernel. -/
def kOnes : KernelFun := fun _ _ _ _ _ _ => fun _ _ => 1

/-- Concrete permutation stream: the identity permutation at every call. -/
def rng0 : ℕ → (n : ℕ) → List (Fin n) := fun _ n => List.finRange n

/-- Concrete 1 × 1 sample matrix with the given entry. -/
def mat1 (q : ℚ) : MatQ 1 1 := fun _ _ => q

/-- Concrete 1-D reference set with the two points 0 and 1. -/
def refC2 : MatQ 1 2 := fun _ j => if (j : ℕ) = 0 then 0 else 1

/-- Concrete 1-D test set with the single point 3. -/
def testC2 : MatQ 1 1 := mat1 3

/-- Degenerate reference set: two identical columns. -/
def sevenRef : MatQ 1 2 := fun _ _ => 7

/-- Degenerate test set: the same repeated column. -/
def sevenTest : MatQ 1 1 := mat1 7

/-- A freshly constructed orchestrator: no sigma/lambda override, default
basis count 100 and 5 folds, no centers yet. -/
def stFresh : RulsifState 1 1 :=
  { alphaConstraint := 0, sigmaWidth := none, lambdaRegularizer := none,
    kernelBasis := some 100, crossFolds := 5, gaussianCenters := none }

/-- An orchestrator state with centers and basis count present, lambda
configured to 1, and sigma missing (Python `None`) — reachable by configuring
`--lambda` only and calling `train` (which assigns centers, then fails). -/
def stBad : RulsifState 1 1 :=
  { alphaConstraint := 0, sigmaWidth := none, lambdaRegularizer := some 1,
    kernelBasis := some 1, crossFolds := 5, gaussianCenters := some (mat1 5) }

/-- Concrete 2 × 2 cross-validation score matrix for the selection rule. -/
def scoresW : Fin 2 → Fin 2 → ℚ := ![![1, 0], ![2, 3]]

/-- Concrete sigma candidates for the selection rule. -/
noncomputable def sigmasW : Fin 2 → Option ℝ := ![some 1, some 2]

/-- Concrete lambda candidates for the selection rule. -/
def lambdasW : Fin 2 → ℚ := ![1, 10]

/-- Binding an `Except.ok` value is function application. -/
theorem except_ok_bind {α β : Type} (a : α) (f : α → Except PyErr β) :
    (Except.ok a >>= f) = f a :=
  rfl

/-- Binding an `Except.error` propagates the error. -/
theorem except_error_bind {α β : Type} (e : PyErr) (f : α → Except PyErr β) :
    ((Except.error e : Except PyErr α) >>= f) = .error e :=
  rfl

/-- Inversion for a bind that evaluated to an error: either the first stage
already failed with that error, or it succeeded and the continuation failed. -/
theorem except_bind_error {α β : Type} (x : Except PyErr α)
    (f : α → Except PyErr β) (e : PyErr) (h : x >>= f = .error e) :
    x = .error e ∨ ∃ a, x = .ok a ∧ f a = .error e := by
  cases x with
  | error e2 =>
    left
    have h2 : (Except.error e2 : Except PyErr β) = .error e := h
    rw [Except.error.inj h2]
  | ok a => exact Or.inr ⟨a, rfl, h⟩

/-- C9: for every alpha and every pair of kernel matrices, the matrix
`H = (alpha/N_ref)·K_ref·K_refᵀ + ((1-alpha)/N_test)·K_test·K_testᵀ` computed
by `H_hat` is symmetric.  (In the exact-arithmetic model the floating
tolerance of the claim sharpens to equality.) -/
theorem C9_H_hat_symmetric {b nr nt : ℕ} (alpha : ℚ) (Kref : MatQ b nr)
    (Ktest : MatQ b nt) :
    (AlphaRelativeDensityRatioEstimator.H_hat alpha Kref Ktest).transpose =
      AlphaRelativeDensityRatioEstimator.H_hat alpha Kref Ktest := by
  simp [AlphaRelativeDensityRatioEstimator.H_hat, Matrix.transpose_add,
    Matrix.transpose_smul, Matrix.transpose_mul, Matrix.transpose_transpose]

/-- C7: the default center-selection strategy used by `train`
(`generateGaussianCenters`, which always delegates to
`generateAllGaussianCenters`) returns all reference samples as centers and
overwrites `kernelBasis` with the reference sample count, whatever basis-count
override the state held before. -/
theorem C7_generateGaussianCenters_all {d c nr : ℕ} (st : RulsifState d c)
    (ref : MatQ d nr) :
    (RULSIF.generateGaussianCenters st ref).2 = ref ∧
      (RULSIF.generateGaussianCenters st ref).1.kernelBasis = some nr := by
  constructor
  · funext i j
    simp [RULSIF.generateGaussianCenters, RULSIF.generateAllGaussianCenters,
      RULSIF.sliceCols]
  · rfl

/-- The value at `npArgmin` is a minimum of the vector. -/
theorem npArgmin_isMin {n : ℕ} (v : Fin n → ℚ) (h : 0 < n) (k : Fin n) :
    v (RULSIF.npArgmin v h) ≤ v k := by
  have hmem : RULSIF.npArgmin v h ∈
      Finset.univ.filter fun i => ∀ j, v i ≤ v j := Finset.min'_mem _ _
  exact (Finset.mem_filter.mp hmem).2 k

/-- Indices before `npArgmin` carry strictly larger values: `numpy.argmin`
reports the first (lowest) index attaining the minimum. -/
theorem npArgmin_first {n : ℕ} (v : Fin n → ℚ) (h : 0 < n) (k : Fin n)
    (hk : k < RULSIF.npArgmin v h) : v (RULSIF.npArgmin v h) < v k := by
  by_contra hle
  push_neg at hle
  have hkmin : ∀ j, v k ≤ v j := fun j => le_trans hle (npArgmin_isMin v h j)
  have hmin : RULSIF.npArgmin v h ≤ k :=
    Finset.min'_le _ _ (Finset.mem_filter.mpr ⟨Finset.mem_univ _, hkmin⟩)
  exact absurd hk (not_lt.mpr hmin)

/-- C6: the selected hyperparameters come from taking, per sigma row, the
minimum score across lambdas together with the first lambda index achieving
it, then the minimum (again first index on ties) across sigma rows. -/
theorem C6_selection_rule {s l : ℕ} (scores : Fin s → Fin l → ℚ)
    (sigmas : Fin s → Option ℝ) (lambdas : Fin l → ℚ) (hs : 0 < s)
    (hl : 0 < l) :
    ∃ i j, RULSIF.selectOptimal scores sigmas lambdas hs hl =
        (sigmas i, lambdas j) ∧
      (∀ jj, scores i j ≤ scores i jj) ∧
      (∀ jj, jj < j → scores i j < scores i jj) ∧
      (∀ ii, scores i j ≤ scores ii (RULSIF.npArgmin (scores ii) hl)) ∧
      (∀ ii, ii < i → scores i j < scores ii (RULSIF.npArgmin (scores ii) hl)) := by
  refine ⟨RULSIF.npArgmin (fun i => scores i (RULSIF.npArgmin (scores i) hl)) hs,
    RULSIF.npArgmin
      (scores (RULSIF.npArgmin (fun i => scores i (RULSIF.npArgmin (scores i) hl)) hs)) hl,
    rfl, ?_, ?_, ?_, ?_⟩
  · exact fun jj => npArgmin_isMin _ hl jj
  · exact fun jj hjj => npArgmin_first _ hl jj hjj
  · exact fun ii =>
      npArgmin_isMin (fun i => scores i (RULSIF.npArgmin (scores i) hl)) hs ii
  · exact fun ii hii =>
      npArgmin_first (fun i => scores i (RULSIF.npArgmin (scores i) hl)) hs ii hii

/-- Witness for C6 at a concrete 2 × 2 score matrix. -/
theorem C6_selection_rule_witness :
    0 < 2 ∧
      ∃ i j, RULSIF.selectOptimal scoresW sigmasW lambdasW (by norm_num)
          (by norm_num) = (sigmasW i, lambdasW j) ∧
        (∀ jj, scoresW i j ≤ scoresW i jj) ∧
        (∀ jj, jj < j → scoresW i j < scoresW i jj) ∧
        (∀ ii, scoresW i j ≤
          scoresW ii (RULSIF.npArgmin (scoresW ii) (by norm_num))) ∧
        (∀ ii, ii < i → scoresW i j <
          scoresW ii (RULSIF.npArgmin (scoresW ii) (by norm_num))) :=
  ⟨by norm_num, C6_selection_rule scoresW sigmasW lambdasW (by norm_num) (by norm_num)⟩

/-- The concrete combined sample set of the C2 failing input: the three 1-D
points 0, 1 and 3 as rows. -/
theorem combinedC2_eval :
    RULSIF.combinedSamplesT refC2 testC2 = ![![0], ![1], ![3]] := by
  funext i k
  fin_cases i <;> fin_cases k <;>
    norm_num [RULSIF.combinedSamplesT, refC2, testC2, mat1]

/-- For the points 0, 1, 3 the builtin-sum `G` is `[11]`, so the program's
strictly-upper entries are `22 - 2·xᵢxⱼ`: the list `[22, 22, 16]` — not the
pairwise squared distances 1, 9, 4. -/
theorem upperC2_eval :
    RULSIF.upperPositiveEntries (RULSIF.combinedSamplesT refC2 testC2) =
      [22, 22, 16] := by
  rw [combinedC2_eval]
  norm_num [RULSIF.upperPositiveEntries, RULSIF.corruptDistances,
    RULSIF.G_builtinSum, List.finRange_succ, List.finRange_zero,
    Fin.sum_univ_succ, Fin.sum_univ_zero, Fin.sum_univ_one, List.filter,
    Fin.lt_def, List.flatMap]

/-- Median of the program's corrupted entry list at the C2 failing input. -/
theorem medianC2_eval :
    RULSIF.npMedian
      (RULSIF.upperPositiveEntries (RULSIF.combinedSamplesT refC2 testC2)) =
      some 22 := by
  rw [upperC2_eval]
  decide

/-- Width value at the C2 failing input: `sqrt(0.5 · 22) = sqrt 11`. -/
theorem medDistC2_eval :
    RULSIF.getMedianDistanceBetweenSamples
      (RULSIF.combinedSamplesT refC2 testC2) =
      .ok (some (Real.sqrt ((1 / 2 : ℝ) * ((22 : ℚ) : ℝ)))) := by
  unfold RULSIF.getMedianDistanceBetweenSamples
  rw [if_pos (Or.inr (Or.inl rfl)), if_neg (by norm_num), medianC2_eval]
  rfl

/-- Widths from a successful median step. -/
theorem widthCandidates_ok_of {d nr nt : ℕ} (ref : MatQ d nr) (test : MatQ d nt)
    (md : Option ℝ)
    (hmed : RULSIF.getMedianDistanceBetweenSamples
      (RULSIF.combinedSamplesT ref test) = .ok md) :
    RULSIF.computeGaussianWidthCandidates ref test =
      .ok (RULSIF.widthFactors.map fun (c : ℚ) => md.map fun x => x * (c : ℝ)) := by
  unfold RULSIF.computeGaussianWidthCandidates
  rw [hmed]
  rfl

/-- A `ValueError` from the median step propagates to the width candidates. -/
theorem widthCandidates_error_of {d nr nt : ℕ} (ref : MatQ d nr)
    (test : MatQ d nt) (e : PyErr)
    (hmed : RULSIF.getMedianDistanceBetweenSamples
      (RULSIF.combinedSamplesT ref test) = .error e) :
    RULSIF.computeGaussianWidthCandidates ref test = .error e := by
  unfold RULSIF.computeGaussianWidthCandidates
  rw [hmed]
  rfl

/-- C2 (code bug): at the reference points 0, 1 and the test point 3 the
median Euclidean distance among the distinct pairs is 2 (distances 1, 2, 3),
so the claimed candidates are `2 · [0.6, 0.8, 1, 1.2, 1.4]`; the program
instead builds `G` with Python's builtin `sum` (1 + column sums of squares,
rulsif.py:239), obtains the entries 22, 22, 16 with median 22, and returns
`sqrt(0.5 · 22) = sqrt 11 ≈ 3.317 ≠ 2` times the grid. -/
theorem C2_width_code_bug_eval :
    RULSIF.computeGaussianWidthCandidates refC2 testC2 =
      .ok (RULSIF.widthFactors.map fun (c : ℚ) =>
        some (Real.sqrt ((1 / 2 : ℝ) * ((22 : ℚ) : ℝ)) * (c : ℝ))) ∧
    Real.sqrt ((1 / 2 : ℝ) * ((22 : ℚ) : ℝ)) ≠ 2 := by
  constructor
  · rw [widthCandidates_ok_of refC2 testC2 _ medDistC2_eval]
    rfl
  · intro hcontra
    have h11 : Real.sqrt ((1 / 2 : ℝ) * ((22 : ℚ) : ℝ)) = Real.sqrt 11 := by
      norm_num
    rw [h11] at hcontra
    have h4 : (2 : ℝ) ^ 2 = 11 := by
      rw [← hcontra]
      exact Real.sq_sqrt (by norm_num)
    norm_num at h4

/-- `numpy.median` of a non-empty array of equal values is that value. -/
theorem npMedian_const (l : List ℚ) (v : ℚ) (hne : l ≠ [])
    (hall : ∀ y ∈ l, y = v) : RULSIF.npMedian l = some v := by
  have hlen : 0 < l.length := List.length_pos.mpr hne
  have hslen : (List.insertionSort (fun a b => a ≤ b) l).length = l.length :=
    List.length_insertionSort _ l
  have hsall : ∀ y ∈ List.insertionSort (fun a b => a ≤ b) l, y = v := fun y hy =>
    hall y ((List.perm_insertionSort _ l).mem_iff.mp hy)
  have hgetD : ∀ i, i < l.length →
      (List.insertionSort (fun a b => a ≤ b) l).getD i 0 = v := by
    intro i hi
    have hi' : i < (List.insertionSort (fun a b => a ≤ b) l).length := by
      rw [hslen]; exact hi
    rw [List.getD_eq_getElem _ _ hi']
    exact hsall _ (List.getElem_mem _)
  unfold RULSIF.npMedian
  rw [if_neg (Nat.pos_iff_ne_zero.mp hlen)]
  by_cases hodd : l.length % 2 = 1
  · rw [if_pos hodd, hgetD _ (Nat.div_lt_self hlen (by norm_num))]
  · rw [if_neg hodd, hgetD _ (Nat.div_lt_self hlen (by norm_num)),
      hgetD _ (lt_of_le_of_lt (Nat.sub_le _ _) (Nat.div_lt_self hlen (by norm_num)))]
    norm_num

/-- For 1-D samples whose rows are all the constant `x`, every strictly-upper
entry of the corrupted distance matrix is `2·(1 + n·x²) - 2·x² =
2 + 2·(n-1)·x² > 0`, so the `> 0` selection is non-empty and the median
width is the numeric `sqrt(0.5·(2 + 2·(n-1)·x²))` — never NaN. -/
theorem degenerate_width_eval {nr nt : ℕ} (ref : MatQ 1 nr) (test : MatQ 1 nt)
    (x : ℚ)
    (hx : ∀ i k, RULSIF.combinedSamplesT ref test i k = x)
    (hn : 2 ≤ nr + nt) :
    RULSIF.upperPositiveEntries (RULSIF.combinedSamplesT ref test) ≠ [] ∧
      RULSIF.getMedianDistanceBetweenSamples (RULSIF.combinedSamplesT ref test) =
        .ok (some (Real.sqrt ((1 / 2 : ℝ) *
          ((2 + 2 * (((nr + nt : ℕ) : ℚ) - 1) * x ^ 2 : ℚ) : ℝ)))) := by
  set v : ℚ := 2 + 2 * (((nr + nt : ℕ) : ℚ) - 1) * x ^ 2 with hv
  have hcast : (1 : ℚ) ≤ ((nr + nt : ℕ) : ℚ) := by
    exact_mod_cast le_trans (by norm_num) hn
  have hvpos : 0 < v := by
    rw [hv]
    nlinarith [sq_nonneg x, mul_nonneg (sub_nonneg.mpr hcast) (sq_nonneg x)]
  have hentry : ∀ i j : Fin (nr + nt),
      RULSIF.corruptDistances (RULSIF.combinedSamplesT ref test) i j = v := by
    intro i j
    unfold RULSIF.corruptDistances RULSIF.G_builtinSum
    rw [dif_pos rfl]
    simp only [hx]
    rw [Finset.sum_const, Finset.sum_const]
    simp only [Finset.card_univ, Fintype.card_fin, smul_eq_mul, nsmul_eq_mul]
    rw [hv]
    push_cast
    ring
  have hallv : ∀ y ∈ RULSIF.upperPositiveEntries
      (RULSIF.combinedSamplesT ref test), y = v := by
    intro y hy
    simp only [RULSIF.upperPositiveEntries, List.mem_filter, List.mem_flatMap,
      List.mem_map, List.mem_finRange, true_and, decide_eq_true_eq] at hy
    obtain ⟨⟨i, j, rfl⟩, hpos⟩ := hy
    by_cases hij : i < j
    · rw [if_pos hij]
      exact hentry i j
    · rw [if_neg hij] at hpos
      exact absurd hpos (lt_irrefl 0)
  have hne : RULSIF.upperPositiveEntries (RULSIF.combinedSamplesT ref test) ≠ [] := by
    have h01 : (⟨0, by omega⟩ : Fin (nr + nt)) < (⟨1, by omega⟩ : Fin (nr + nt)) := by
      simp [Fin.lt_def]
    have hmem : v ∈ RULSIF.upperPositiveEntries (RULSIF.combinedSamplesT ref test) := by
      simp only [RULSIF.upperPositiveEntries, List.mem_filter, List.mem_flatMap,
        List.mem_map, List.mem_finRange, true_and, decide_eq_true_eq]
      refine ⟨⟨⟨0, by omega⟩, ⟨1, by omega⟩, ?_⟩, hvpos⟩
      rw [if_pos h01, hentry]
    exact List.ne_nil_of_mem hmem
  refine ⟨hne, ?_⟩
  have hmed : RULSIF.npMedian
      (RULSIF.upperPositiveEntries (RULSIF.combinedSamplesT ref test)) = some v :=
    npMedian_const _ v hne hallv
  unfold RULSIF.getMedianDistanceBetweenSamples
  rw [if_pos (Or.inr (Or.inl rfl)), if_neg (by simp), hmed]
  rfl

/-- The all-sevens degenerate sample set has every combined entry 7. -/
theorem sevens_const :
    ∀ i k, RULSIF.combinedSamplesT sevenRef sevenTest i k = (7 : ℚ) := by
  intro i k
  fin_cases i <;> fin_cases k <;>
    norm_num [RULSIF.combinedSamplesT, sevenRef, sevenTest, mat1]

/-- C10 corrected: on a degenerate 1-D input whose combined columns are all
identical, the builtin-sum slip at rulsif.py:239 makes every strictly-upper
entry the positive constant `2 + 2·(n-1)·x²`, so the `> 0` selection is
non-empty, `numpy.median` acts on a non-empty array, and the returned width —
and with it every sigma candidate — is numeric: the claimed empty selection
and NaN never occur on such inputs. -/
theorem C10_degenerate_width_numeric {nr nt : ℕ} (ref : MatQ 1 nr)
    (test : MatQ 1 nt) (x : ℚ)
    (hx : ∀ i k, RULSIF.combinedSamplesT ref test i k = x)
    (hn : 2 ≤ nr + nt) :
    RULSIF.getMedianDistanceBetweenSamples (RULSIF.combinedSamplesT ref test) =
      .ok (some (Real.sqrt ((1 / 2 : ℝ) *
        ((2 + 2 * (((nr + nt : ℕ) : ℚ) - 1) * x ^ 2 : ℚ) : ℝ)))) ∧
    ∀ L, RULSIF.computeGaussianWidthCandidates ref test = .ok L →
      ∀ w ∈ L, w.isSome = true := by
  obtain ⟨-, hmed⟩ := degenerate_width_eval ref test x hx hn
  refine ⟨hmed, ?_⟩
  intro L hL w hw
  rw [widthCandidates_ok_of ref test _ hmed] at hL
  have hL2 : L = RULSIF.widthFactors.map fun (c : ℚ) =>
      (some (Real.sqrt ((1 / 2 : ℝ) *
        ((2 + 2 * (((nr + nt : ℕ) : ℚ) - 1) * x ^ 2 : ℚ) : ℝ)))).map
        fun y => y * (c : ℝ) := (Except.ok.inj hL).symm
  rw [hL2] at hw
  obtain ⟨c, -, rfl⟩ := List.mem_map.mp hw
  rfl

/-- C10 counterexample: at the degenerate all-sevens input the behavior the
claim asserts is absent — the positive selection is non-empty (every upper
entry is 198) and the width is the number `sqrt(0.5·198) = sqrt 99`, not
NaN, with no error raised. -/
theorem C10_degenerate_nan_counterexample :
    RULSIF.upperPositiveEntries (RULSIF.combinedSamplesT sevenRef sevenTest) ≠ [] ∧
      RULSIF.getMedianDistanceBetweenSamples
        (RULSIF.combinedSamplesT sevenRef sevenTest) =
        .ok (some (Real.sqrt ((1 / 2 : ℝ) * ((198 : ℚ) : ℝ)))) := by
  have h := degenerate_width_eval sevenRef sevenTest 7 sevens_const (by norm_num)
  refine ⟨h.1, ?_⟩
  have hval : ((2 + 2 * (((2 + 1 : ℕ) : ℚ) - 1) * (7 : ℚ) ^ 2 : ℚ)) = 198 := by
    norm_num
  rw [← hval]
  exact h.2

/-- Witness for the corrected C10 at the all-sevens degenerate input. -/
theorem C10_degenerate_width_numeric_witness :
    (∀ i k, RULSIF.combinedSamplesT sevenRef sevenTest i k = (7 : ℚ)) ∧
      2 ≤ 2 + 1 ∧
      (RULSIF.getMedianDistanceBetweenSamples
          (RULSIF.combinedSamplesT sevenRef sevenTest) =
        .ok (some (Real.sqrt ((1 / 2 : ℝ) *
          ((2 + 2 * (((2 + 1 : ℕ) : ℚ) - 1) * (7 : ℚ) ^ 2 : ℚ) : ℝ)))) ∧
      ∀ L, RULSIF.computeGaussianWidthCandidates sevenRef sevenTest = .ok L →
        ∀ w ∈ L, w.isSome = true) :=
  ⟨sevens_const, by norm_num,
    C10_degenerate_width_numeric sevenRef sevenTest 7 sevens_const (by norm_num)⟩

/-- `H_hat_checked` succeeds on non-empty inputs and is then the formula. -/
theorem H_hat_checked_ok {b nr nt : ℕ} (hr : nr ≠ 0) (ht : nt ≠ 0) (alpha : ℚ)
    (Kref : MatQ b nr) (Ktest : MatQ b nt) :
    AlphaRelativeDensityRatioEstimator.H_hat_checked alpha Kref Ktest =
      .ok (AlphaRelativeDensityRatioEstimator.H_hat alpha Kref Ktest) := by
  unfold AlphaRelativeDensityRatioEstimator.H_hat_checked
  rw [if_neg hr, if_neg ht]

/-- `H_hat_checked` raises `ZeroDivisionError` when either input is empty. -/
theorem H_hat_checked_zeroDiv {b nr nt : ℕ} (hz : nr = 0 ∨ nt = 0) (alpha : ℚ)
    (Kref : MatQ b nr) (Ktest : MatQ b nt) :
    AlphaRelativeDensityRatioEstimator.H_hat_checked alpha Kref Ktest =
      .error (.zeroDivisionError "float division by zero") := by
  unfold AlphaRelativeDensityRatioEstimator.H_hat_checked
  by_cases hr : nr = 0
  · rw [if_pos hr]
  · rw [if_neg hr, if_pos (hz.resolve_left hr)]

/-- Errors of `H_hat_checked` are always the `ZeroDivisionError`. -/
theorem H_hat_checked_error_shape {b nr nt : ℕ} (alpha : ℚ) (Kref : MatQ b nr)
    (Ktest : MatQ b nt) (e : PyErr)
    (h : AlphaRelativeDensityRatioEstimator.H_hat_checked alpha Kref Ktest =
      .error e) : ∃ m, e = .zeroDivisionError m := by
  unfold AlphaRelativeDensityRatioEstimator.H_hat_checked at h
  split at h
  · exact ⟨_, (Except.error.inj h).symm⟩
  · split at h
    · exact ⟨_, (Except.error.inj h).symm⟩
    · exact Except.noConfusion h

/-- Concrete evaluation of the density-ratio estimator with the all-ones
kernel, alpha 0, missing sigma and lambda 1 on 1 × 1 inputs: the counts are
non-zero so `H_hat` is computed, the fit solves `2·θ = 1`, and both ratio
vectors are constantly one half. -/
theorem alphaApply_ones_eval :
    AlphaRelativeDensityRatioEstimator.apply kOnes 0 none (some 1) (mat1 2)
        (mat1 3) (mat1 5) =
      .ok ((fun _ => 1 / 2 : Fin 1 → ℚ), (fun _ => 1 / 2 : Fin 1 → ℚ)) := by
  have hHc : AlphaRelativeDensityRatioEstimator.H_hat_checked (0 : ℚ)
      ((kOnes none 1 1 1 (mat1 2) (mat1 5)).transpose)
      ((kOnes none 1 1 1 (mat1 3) (mat1 5)).transpose) =
      .ok (AlphaRelativeDensityRatioEstimator.H_hat (0 : ℚ)
        ((kOnes none 1 1 1 (mat1 2) (mat1 5)).transpose)
        ((kOnes none 1 1 1 (mat1 3) (mat1 5)).transpose)) :=
    H_hat_checked_ok (by norm_num) (by norm_num) _ _ _
  have hplus : (AlphaRelativeDensityRatioEstimator.H_hat (0 : ℚ)
      ((kOnes none 1 1 1 (mat1 2) (mat1 5)).transpose)
      ((kOnes none 1 1 1 (mat1 3) (mat1 5)).transpose) +
        (1 : ℚ) • (1 : MatQ 1 1)) = fun _ _ => (2 : ℚ) := by
    funext i j
    fin_cases i
    fin_cases j
    norm_num [AlphaRelativeDensityRatioEstimator.H_hat, kOnes, mat1,
      Matrix.mul_apply, Matrix.one_apply, Fin.sum_univ_one, Matrix.add_apply,
      Matrix.smul_apply, Matrix.transpose_apply]
  have hdet : (Matrix.det ((fun _ _ => (2 : ℚ)) : MatQ 1 1)) = 2 := by
    rw [Matrix.det_fin_one]
  unfold AlphaRelativeDensityRatioEstimator.apply
    AlphaRelativeDensityRatioEstimator.theta_hat
  simp only [hHc, except_ok_bind]
  simp only [hplus]
  unfold linalg_solve
  rw [if_neg (by rw [hdet]; norm_num)]
  simp only [except_ok_bind]
  show Except.ok _ = _
  refine congrArg Except.ok ?_
  refine Prod.ext ?_ ?_ <;>
    · funext i
      fin_cases i
      norm_num [AlphaRelativeDensityRatioEstimator.g_of_X_theta,
        AlphaRelativeDensityRatioEstimator.h_hat, hdet, Matrix.adjugate_fin_one,
        Matrix.mulVec, Matrix.dotProduct, Fin.sum_univ_one, kOnes, mat1,
        Matrix.one_apply, Matrix.transpose_apply]

/-- C8: whenever the density-ratio fit succeeds, the divergence estimator
returns exactly
`PE = mean(r_ref) - 0.5·(alpha·mean(r_ref²) + (1-alpha)·mean(r_test²)) - 0.5`
computed from the two ratio vectors the density-ratio estimator produced,
together with the ratio-at-test vector. -/
theorem C8_pearson_divergence_formula {d nr nt b : ℕ} (kfun : KernelFun)
    (alpha : ℚ) (sigma : Option ℝ) (lam : Option ℚ) (ref : MatQ d nr)
    (test : MatQ d nt) (centers : MatQ d b) (rref : Fin nr → ℚ)
    (rtest : Fin nt → ℚ)
    (h : AlphaRelativeDensityRatioEstimator.apply kfun alpha sigma lam ref test
        centers = .ok (rref, rtest)) :
    PearsonRelativeDivergenceEstimator.apply kfun alpha sigma lam ref test
        centers =
      .ok (vecMean rref -
            (1 / 2) * (alpha * vecMean (fun i => rref i ^ 2) +
              (1 - alpha) * vecMean (fun i => rtest i ^ 2)) - 1 / 2,
           rtest) := by
  unfold PearsonRelativeDivergenceEstimator.apply
  rw [h]
  rfl

/-- Witness for C8 at the all-ones kernel on 1 × 1 inputs. -/
theorem C8_pearson_divergence_formula_witness :
    AlphaRelativeDensityRatioEstimator.apply kOnes 0 none (some 1) (mat1 2)
        (mat1 3) (mat1 5) =
      .ok ((fun _ => 1 / 2 : Fin 1 → ℚ), (fun _ => 1 / 2 : Fin 1 → ℚ)) ∧
    PearsonRelativeDivergenceEstimator.apply kOnes 0 none (some 1) (mat1 2)
        (mat1 3) (mat1 5) =
      .ok (vecMean (fun _ : Fin 1 => (1 / 2 : ℚ)) -
            (1 / 2) * (0 * vecMean (fun _ : Fin 1 => (1 / 2 : ℚ) ^ 2) +
              (1 - 0) * vecMean (fun _ : Fin 1 => (1 / 2 : ℚ) ^ 2)) - 1 / 2,
           fun _ => 1 / 2) :=
  ⟨alphaApply_ones_eval,
    C8_pearson_divergence_formula kOnes 0 none (some 1) (mat1 2) (mat1 3)
      (mat1 5) (fun _ => 1 / 2) (fun _ => 1 / 2) alphaApply_ones_eval⟩

/-- Concrete divergence-estimator evaluation with the all-ones kernel:
the score is `1/2 - 0.5·(1·1/4) - 0.5 = -1/8`. -/
theorem pearsonApply_ones_eval :
    PearsonRelativeDivergenceEstimator.apply kOnes 0 none (some 1) (mat1 2)
        (mat1 3) (mat1 5) = .ok (-(1 / 8 : ℚ), fun _ => 1 / 2) := by
  unfold PearsonRelativeDivergenceEstimator.apply
  rw [alphaApply_ones_eval]
  show Except.ok _ = _
  refine congrArg Except.ok ?_
  refine Prod.ext ?_ rfl
  norm_num [vecMean, Fin.sum_univ_one]

/-- C3 counterexample: in the reachable state with centers and basis count
present, lambda 1, and sigma missing (Python `None`), `apply` does not fail
with a configuration error — the `sigmaWidth == 0.0` test is `False` for a
missing width, so `apply` runs the whole numerical pipeline and succeeds. -/
theorem C3_apply_guard_counterexample :
    RULSIF.apply kOnes stBad (mat1 2) (mat1 3) = .ok (-(1 / 8 : ℚ)) := by
  simp only [RULSIF.apply, stBad]
  rw [if_neg (by simp)]
  rw [pearsonApply_ones_eval]
  rfl

/-- Errors of `theta_hat` are the `TypeError` on a `None` lambda or the
singular-solve `LinAlgError`, never the configuration `Exception`. -/
theorem theta_hat_error_shape {b : ℕ} (H : MatQ b b) (hh : Fin b → ℚ)
    (lam : Option ℚ) (e : PyErr)
    (h : AlphaRelativeDensityRatioEstimator.theta_hat H hh lam = .error e) :
    (∃ m, e = .typeError m) ∨ ∃ m, e = .numericalError m := by
  cases lam with
  | none =>
    have h2 : (Except.error
        (PyErr.typeError "unsupported operand types NoneType and ndarray") :
        Except PyErr (Fin b → ℚ)) = .error e := h
    exact Or.inl ⟨_, (Except.error.inj h2).symm⟩
  | some l =>
    have h2 : linalg_solve (H + l • (1 : MatQ b b)) hh = .error e := h
    unfold linalg_solve at h2
    split at h2
    · exact Or.inr ⟨_, (Except.error.inj h2).symm⟩
    · exact Except.noConfusion h2

/-- The density-ratio estimator is the checked `H_hat` bound into the
`theta_hat` fit and the two ratio evaluations. -/
theorem alphaApply_as_bind {d nr nt b : ℕ} (kfun : KernelFun) (alpha : ℚ)
    (sigma : Option ℝ) (lam : Option ℚ) (ref : MatQ d nr) (test : MatQ d nt)
    (centers : MatQ d b) :
    AlphaRelativeDensityRatioEstimator.apply kfun alpha sigma lam ref test
        centers =
      (AlphaRelativeDensityRatioEstimator.H_hat_checked alpha
          ((kfun sigma d nr b ref centers).transpose)
          ((kfun sigma d nt b test centers).transpose)) >>= fun H =>
        (AlphaRelativeDensityRatioEstimator.theta_hat H
          (AlphaRelativeDensityRatioEstimator.h_hat
            ((kfun sigma d nr b ref centers).transpose)) lam) >>= fun th => .ok
          (AlphaRelativeDensityRatioEstimator.g_of_X_theta
            ((kfun sigma d nr b ref centers).transpose) th,
           AlphaRelativeDensityRatioEstimator.g_of_X_theta
            ((kfun sigma d nt b test centers).transpose) th) :=
  rfl

/-- Alpha-ratio estimator errors are never the configuration `Exception`:
they arise only from the `TypeError` on a `None` lambda, the singular linear
solve, or the `ZeroDivisionError` on an empty sample matrix. -/
theorem alphaApply_error_shape {d nr nt b : ℕ} (kfun : KernelFun) (alpha : ℚ)
    (sigma : Option ℝ) (lam : Option ℚ) (ref : MatQ d nr) (test : MatQ d nt)
    (centers : MatQ d b) (e : PyErr)
    (h : AlphaRelativeDensityRatioEstimator.apply kfun alpha sigma lam ref test
        centers = .error e) :
    (∃ m, e = .typeError m) ∨ (∃ m, e = .numericalError m) ∨
      ∃ m, e = .zeroDivisionError m := by
  rw [alphaApply_as_bind] at h
  rcases except_bind_error _ _ _ h with hH | ⟨Hm, -, h2⟩
  · exact Or.inr (Or.inr (H_hat_checked_error_shape _ _ _ _ hH))
  · rcases except_bind_error _ _ _ h2 with ht | ⟨th, -, h3⟩
    · rcases theta_hat_error_shape _ _ _ _ ht with h4 | h4
      · exact Or.inl h4
      · exact Or.inr (Or.inl h4)
    · exact Except.noConfusion h3

/-- Divergence-estimator errors are exactly the density-ratio estimator's
errors, hence never the configuration `Exception`. -/
theorem pearsonApply_error_shape {d nr nt b : ℕ} (kfun : KernelFun)
    (alpha : ℚ) (sigma : Option ℝ) (lam : Option ℚ) (ref : MatQ d nr)
    (test : MatQ d nt) (centers : MatQ d b) (e : PyErr)
    (h : PearsonRelativeDivergenceEstimator.apply kfun alpha sigma lam ref test
        centers = .error e) :
    (∃ m, e = .typeError m) ∨ (∃ m, e = .numericalError m) ∨
      ∃ m, e = .zeroDivisionError m := by
  unfold PearsonRelativeDivergenceEstimator.apply at h
  rcases except_bind_error _ _ _ h with ha | ⟨v, -, h2⟩
  · exact alphaApply_error_shape kfun alpha sigma lam ref test centers e ha
  · obtain ⟨vr, vt⟩ := v
    exact Except.noConfusion h2

/-- C3 amended: `RULSIF.apply` raises a configuration error exactly when the
centers or the basis count are `None`, or when sigma or lambda is present and
equal to zero; a missing (`None`) sigma or lambda slips past the
`== 0.0` guard and is not caught. -/
theorem C3_amended_guard_characterization {d c nr nt : ℕ} (kfun : KernelFun)
    (st : RulsifState d c) (ref : MatQ d nr) (test : MatQ d nt) :
    (∃ msg, RULSIF.apply kfun st ref test = .error (.exception msg)) ↔
      (st.gaussianCenters = none ∨ st.kernelBasis = none ∨
        st.sigmaWidth = some 0 ∨ st.lambdaRegularizer = some 0) := by
  obtain ⟨a, sw, lr, kb, cf, gc⟩ := st
  cases gc with
  | none => simp [RULSIF.apply]
  | some cen =>
    cases kb with
    | none => simp [RULSIF.apply]
    | some k =>
      simp only [RULSIF.apply]
      by_cases hg : (sw = some 0 ∨ lr = some 0)
      · rw [if_pos hg]
        simp only [reduceCtorEq, false_or]
        constructor
        · intro _; exact hg
        · intro _; exact ⟨"Missing model selection parameters", rfl⟩
      · rw [if_neg hg]
        constructor
        · rintro ⟨msg, hmsg⟩
          exfalso
          rcases hp : PearsonRelativeDivergenceEstimator.apply kfun a sw lr ref
              test cen with e2 | v2
          · rw [hp] at hmsg
            have he : e2 = .exception msg := Except.error.inj hmsg
            rcases pearsonApply_error_shape kfun a sw lr ref test cen e2 hp with
              ⟨m, rfl⟩ | ⟨m, rfl⟩ | ⟨m, rfl⟩ <;> exact PyErr.noConfusion he
          · rw [hp] at hmsg
            exact Except.noConfusion hmsg
        · intro hr
          exfalso
          rcases hr with h1 | h2 | h3 | h4
          · exact Option.noConfusion h1
          · exact Option.noConfusion h2
          · exact hg (Or.inl h3)
          · exact hg (Or.inr h4)

/-- A monadic fold over `Except` whose first step fails propagates that
error. -/
theorem foldlM_cons_error {α β : Type} (f : β → α → Except PyErr β) (b : β)
    (a : α) (l : List α) (e : PyErr) (h : f b a = .error e) :
    List.foldlM f b (a :: l) = .error e := by
  rw [List.foldlM_cons, h]
  rfl

/-- One fold-loop iteration always fails: the checked `H_hat` raises a
`ZeroDivisionError` on an empty training partition, and otherwise the
`numpy.lambdaCandidates` read raises an `AttributeError` before the inner
lambda loop starts. -/
theorem cvFoldBody_error {b nr nt : ℕ} (alpha : ℚ) (folds : ℕ) (sigmaIdx : ℕ)
    (lambdaCandidates : List ℚ) (Kref : MatQ b nr) (Ktest : MatQ b nt)
    (refIdxs : List (Fin nr)) (testIdxs : List (Fin nt))
    (st : (ℕ → ℕ → ℚ) × (ℕ → ℕ → ℚ)) (foldIdx : ℕ) :
    ∃ e, RULSIF.cvFoldBody alpha folds sigmaIdx lambdaCandidates Kref Ktest
        refIdxs testIdxs st foldIdx = .error e ∧
      ((∃ m, e = .zeroDivisionError m) ∨ ∃ m, e = .attributeError m) := by
  rcases hH : AlphaRelativeDensityRatioEstimator.H_hat_checked alpha
      (RULSIF.colsOf Kref (RULSIF.selIdxs refIdxs fun p =>
        decide (RULSIF.cvSplit folds nr p ≠ foldIdx)))
      (RULSIF.colsOf Ktest (RULSIF.selIdxs testIdxs fun p =>
        decide (RULSIF.cvSplit folds nt p ≠ foldIdx))) with e | H
  · refine ⟨e, ?_, Or.inl (H_hat_checked_error_shape _ _ _ _ hH)⟩
    simp only [RULSIF.cvFoldBody]
    rw [hH]
    rfl
  · refine ⟨.attributeError "module numpy has no attribute lambdaCandidates",
      ?_, Or.inr ⟨_, rfl⟩⟩
    simp only [RULSIF.cvFoldBody]
    rw [hH]
    rfl

/-- With at least one fold, one sigma-loop iteration always fails: its first
fold does. -/
theorem cvSigmaBody_error {d nr nt b : ℕ} (kfun : KernelFun) (alpha : ℚ)
    (folds : ℕ) (hf : 0 < folds) (lambdaCandidates : List ℚ)
    (sigmaWidths : List (Option ℝ)) (ref : MatQ d nr) (test : MatQ d nt)
    (centers : MatQ d b) (refIdxs : List (Fin nr)) (testIdxs : List (Fin nt))
    (scores : ℕ → ℕ → ℚ) (sigmaIdx : ℕ) :
    ∃ e, RULSIF.cvSigmaBody kfun alpha folds lambdaCandidates sigmaWidths ref
        test centers refIdxs testIdxs scores sigmaIdx = .error e ∧
      ((∃ m, e = .zeroDivisionError m) ∨ ∃ m, e = .attributeError m) := by
  obtain ⟨k, rfl⟩ : ∃ k, folds = k + 1 := ⟨folds - 1, by omega⟩
  obtain ⟨e, he, hshape⟩ := cvFoldBody_error alpha (k + 1) sigmaIdx
    lambdaCandidates
    ((kfun (sigmaWidths.getD sigmaIdx none) d nr b ref centers).transpose)
    ((kfun (sigmaWidths.getD sigmaIdx none) d nt b test centers).transpose)
    refIdxs testIdxs (fun _ _ => 0, scores) 0
  refine ⟨e, ?_, hshape⟩
  simp only [RULSIF.cvSigmaBody]
  rw [List.range_succ_eq_map]
  rw [foldlM_cons_error _ _ _ _ _ he]
  rfl

/-- An error from the median step is always a `ValueError` (broadcast or
reshape). -/
theorem getMedian_error_shape {n d : ℕ} (S : MatQ n d) (e : PyErr)
    (h : RULSIF.getMedianDistanceBetweenSamples S = .error e) :
    ∃ m, e = .valueError m := by
  unfold RULSIF.getMedianDistanceBetweenSamples at h
  split at h
  · split at h
    · exact ⟨_, (Except.error.inj h).symm⟩
    · exact Except.noConfusion h
  · exact ⟨_, (Except.error.inj h).symm⟩

/-- An error from the width-candidate step is always a `ValueError`. -/
theorem widthCandidates_error_shape {d nr nt : ℕ} (ref : MatQ d nr)
    (test : MatQ d nt) (e : PyErr)
    (h : RULSIF.computeGaussianWidthCandidates ref test = .error e) :
    ∃ m, e = .valueError m := by
  rcases hm : RULSIF.getMedianDistanceBetweenSamples
      (RULSIF.combinedSamplesT ref test) with e2 | md
  · rw [widthCandidates_error_of ref test e2 hm] at h
    rw [← Except.error.inj h]
    exact getMedian_error_shape _ _ hm
  · rw [widthCandidates_ok_of ref test md hm] at h
    exact Except.noConfusion h

/-- A successful width-candidate step always yields five candidates. -/
theorem widthCandidates_length {d nr nt : ℕ} (ref : MatQ d nr)
    (test : MatQ d nt) (l : List (Option ℝ))
    (h : RULSIF.computeGaussianWidthCandidates ref test = .ok l) :
    l.length = 5 := by
  rcases hm : RULSIF.getMedianDistanceBetweenSamples
      (RULSIF.combinedSamplesT ref test) with e | md
  · rw [widthCandidates_error_of ref test e hm] at h
    exact Except.noConfusion h
  · rw [widthCandidates_ok_of ref test md hm] at h
    rw [← Except.ok.inj h]
    rfl

/-- With at least one fold, cross-validation always raises: either the
corrupted width step's `ValueError`, or — in the first fold of the first sigma
candidate — the empty-training-partition `ZeroDivisionError` or the
`numpy.lambdaCandidates` `AttributeError` (rulsif.py:351). -/
theorem computeModelParameters_error {d nr nt b : ℕ} (kfun : KernelFun)
    (rng : ℕ → (n : ℕ) → List (Fin n)) (alpha : ℚ) (folds : ℕ)
    (hf : 0 < folds) (ref : MatQ d nr) (test : MatQ d nt)
    (centers : MatQ d b) :
    ∃ e, RULSIF.computeModelParameters kfun rng alpha folds ref test centers =
        .error e ∧
      ((∃ m, e = .valueError m) ∨ (∃ m, e = .zeroDivisionError m) ∨
        ∃ m, e = .attributeError m) := by
  rcases hw : RULSIF.computeGaussianWidthCandidates ref test with e | widths
  · refine ⟨e, ?_, Or.inl (widthCandidates_error_shape ref test e hw)⟩
    simp only [RULSIF.computeModelParameters]
    rw [hw]
    rfl
  · obtain ⟨e, he, hshape⟩ := cvSigmaBody_error kfun alpha folds hf
      RULSIF.generateRegularizationParams widths ref test centers (rng 0 nr)
      (rng 1 nt) (fun _ _ => 0) 0
    refine ⟨e, ?_, Or.inr hshape⟩
    simp only [RULSIF.computeModelParameters]
    rw [hw, except_ok_bind, widthCandidates_length ref test widths hw]
    rw [show List.range 5 = 0 :: [1, 2, 3, 4] from rfl]
    rw [foldlM_cons_error _ _ _ _ _ he]
    rfl

/-- `train` either fails — returning the partially written state (centers and
basis count already assigned) with the error — or succeeds and additionally
assigns sigma and lambda from the selected pair. -/
theorem train_cases {d c nr nt : ℕ} (kfun : KernelFun)
    (rng : ℕ → (n : ℕ) → List (Fin n)) (st : RulsifState d c)
    (ref : MatQ d nr) (test : MatQ d nt) :
    (∃ e, RULSIF.train kfun rng st ref test =
        (RULSIF.setCenters (RULSIF.generateGaussianCenters st ref).1
          (RULSIF.generateGaussianCenters st ref).2, some e)) ∨
      ∃ opt : Option ℝ × ℚ, RULSIF.train kfun rng st ref test =
        ({ RULSIF.setCenters (RULSIF.generateGaussianCenters st ref).1
            (RULSIF.generateGaussianCenters st ref).2 with
            sigmaWidth := opt.1, lambdaRegularizer := some opt.2 }, none) := by
  rcases hm : RULSIF.computeModelParameters kfun rng
      (RULSIF.setCenters (RULSIF.generateGaussianCenters st ref).1
        (RULSIF.generateGaussianCenters st ref).2).alphaConstraint
      (RULSIF.setCenters (RULSIF.generateGaussianCenters st ref).1
        (RULSIF.generateGaussianCenters st ref).2).crossFolds ref test
      (RULSIF.generateGaussianCenters st ref).2 with e | opt
  · refine Or.inl ⟨e, ?_⟩
    simp only [RULSIF.train]
    rw [hm]
  · refine Or.inr ⟨opt, ?_⟩
    simp only [RULSIF.train]
    rw [hm]

/-- With a positive fold count, `train` always takes the failure branch. -/
theorem train_error_of {d c nr nt : ℕ} (kfun : KernelFun)
    (rng : ℕ → (n : ℕ) → List (Fin n)) (st : RulsifState d c)
    (hc : 0 < st.crossFolds) (ref : MatQ d nr) (test : MatQ d nt) :
    ∃ e, RULSIF.train kfun rng st ref test =
      (RULSIF.setCenters (RULSIF.generateGaussianCenters st ref).1
        (RULSIF.generateGaussianCenters st ref).2, some e) := by
  obtain ⟨e, he, -⟩ := computeModelParameters_error kfun rng
    (RULSIF.setCenters (RULSIF.generateGaussianCenters st ref).1
      (RULSIF.generateGaussianCenters st ref).2).alphaConstraint
    (RULSIF.setCenters (RULSIF.generateGaussianCenters st ref).1
      (RULSIF.generateGaussianCenters st ref).2).crossFolds hc ref test
    (RULSIF.generateGaussianCenters st ref).2
  refine ⟨e, ?_⟩
  simp only [RULSIF.train]
  rw [he]

/-- C1 (code bug): the cross-validation procedure never completes without
error — for every pair of sample matrices, every center set and every positive
fold count, `computeModelParameters` raises (the corrupted width step's
`ValueError`, the empty-training-partition `ZeroDivisionError`, or the
`numpy.lambdaCandidates` `AttributeError`) before any (sigma, lambda) score
is produced, contradicting the claim that the three loops complete without
error. -/
theorem C1_crossValidation_always_raises {d nr nt b : ℕ} (kfun : KernelFun)
    (rng : ℕ → (n : ℕ) → List (Fin n)) (alpha : ℚ) (folds : ℕ)
    (hf : 0 < folds) (ref : MatQ d nr) (test : MatQ d nt)
    (centers : MatQ d b) :
    ∃ e, RULSIF.computeModelParameters kfun rng alpha folds ref test centers =
      .error e :=
  (computeModelParameters_error kfun rng alpha folds hf ref test centers).imp
    fun _ h => h.1

/-- Concrete instantiation of C1 at 1 × 1 samples with five folds. -/
theorem C1_crossValidation_always_raises_witness :
    0 < 5 ∧ ∃ e, RULSIF.computeModelParameters kOnes rng0 0 5 (mat1 2) (mat1 3)
      (mat1 2) = .error e :=
  ⟨by decide, C1_crossValidation_always_raises kOnes rng0 0 5 (by decide)
    (mat1 2) (mat1 3) (mat1 2)⟩

/-- C4 counterexample: a concrete `train` run that fails partway through and
nevertheless has written the centers — the fitted-state field
`gaussianCenters` differs from its pre-call value. -/
theorem C4_train_partial_write_counterexample :
    (RULSIF.train kOnes rng0 stFresh (mat1 2) (mat1 3)).2.isSome = true ∧
      (RULSIF.train kOnes rng0 stFresh (mat1 2) (mat1 3)).1.gaussianCenters ≠
        stFresh.gaussianCenters := by
  obtain ⟨e, he⟩ := train_error_of kOnes rng0 stFresh (by decide) (mat1 2)
    (mat1 3)
  rw [he]
  refine ⟨rfl, ?_⟩
  simp [RULSIF.setCenters, stFresh]

/-- C4 amended: when `train` fails partway through, `sigmaWidth` and
`lambdaRegularizer` are indeed unchanged, but `gaussianCenters` and
`kernelBasis` have already been overwritten (with all reference samples and
the reference sample count) before the failing cross-validation step. -/
theorem C4_amended_partial_writes {d c nr nt : ℕ} (kfun : KernelFun)
    (rng : ℕ → (n : ℕ) → List (Fin n)) (st : RulsifState d c) (ref : MatQ d nr)
    (test : MatQ d nt)
    (hfail : (RULSIF.train kfun rng st ref test).2.isSome = true) :
    (RULSIF.train kfun rng st ref test).1.sigmaWidth = st.sigmaWidth ∧
      (RULSIF.train kfun rng st ref test).1.lambdaRegularizer =
        st.lambdaRegularizer ∧
      (RULSIF.train kfun rng st ref test).1.kernelBasis = some nr ∧
      (RULSIF.train kfun rng st ref test).1.gaussianCenters =
        some (RULSIF.sliceCols ref nr le_rfl) := by
  rcases train_cases kfun rng st ref test with ⟨e, he⟩ | ⟨opt, he⟩
  · rw [he]
    exact ⟨rfl, rfl, rfl, rfl⟩
  · rw [he] at hfail
    simp at hfail

/-- Witness for the amended C4 on a fresh default orchestrator state. -/
theorem C4_amended_partial_writes_witness :
    (RULSIF.train kOnes rng0 stFresh (mat1 2) (mat1 3)).2.isSome = true ∧
      ((RULSIF.train kOnes rng0 stFresh (mat1 2) (mat1 3)).1.sigmaWidth =
          stFresh.sigmaWidth ∧
        (RULSIF.train kOnes rng0 stFresh (mat1 2) (mat1 3)).1.lambdaRegularizer =
          stFresh.lambdaRegularizer ∧
        (RULSIF.train kOnes rng0 stFresh (mat1 2) (mat1 3)).1.kernelBasis =
          some 1 ∧
        (RULSIF.train kOnes rng0 stFresh (mat1 2) (mat1 3)).1.gaussianCenters =
          some (RULSIF.sliceCols (mat1 2) 1 le_rfl)) := by
  obtain ⟨e, he⟩ := train_error_of kOnes rng0 stFresh (by decide) (mat1 2)
    (mat1 3)
  have hfail : (RULSIF.train kOnes rng0 stFresh (mat1 2) (mat1 3)).2.isSome =
      true := by
    rw [he]
    rfl
  exact ⟨hfail,
    C4_amended_partial_writes kOnes rng0 stFresh (mat1 2) (mat1 3) hfail⟩

/-- C5 (code bug): `train` never selects hyperparameters — every run with a
positive fold count fails before the selection step, leaving `sigmaWidth` and
`lambdaRegularizer` exactly as before the call, so the two seeded runs of the
claim cannot produce identical selected values: nothing is ever selected. -/
theorem C5_train_never_selects {d c nr nt : ℕ} (kfun : KernelFun)
    (rng : ℕ → (n : ℕ) → List (Fin n)) (st : RulsifState d c)
    (hc : 0 < st.crossFolds) (ref : MatQ d nr) (test : MatQ d nt) :
    (RULSIF.train kfun rng st ref test).2 ≠ none ∧
      (RULSIF.train kfun rng st ref test).1.sigmaWidth = st.sigmaWidth ∧
      (RULSIF.train kfun rng st ref test).1.lambdaRegularizer =
        st.lambdaRegularizer := by
  obtain ⟨e, he⟩ := train_error_of kfun rng st hc ref test
  rw [he]
  exact ⟨Option.some_ne_none e, rfl, rfl⟩

/-- Concrete instantiation of C5 on a fresh default orchestrator state. -/
theorem C5_train_never_selects_witness :
    0 < stFresh.crossFolds ∧
      ((RULSIF.train kOnes rng0 stFresh (mat1 2) (mat1 3)).2 ≠ none ∧
        (RULSIF.train kOnes rng0 stFresh (mat1 2) (mat1 3)).1.sigmaWidth =
          stFresh.sigmaWidth ∧
        (RULSIF.train kOnes rng0 stFresh (mat1 2) (mat1 3)).1.lambdaRegularizer =
          stFresh.lambdaRegularizer) :=
  ⟨by decide, C5_train_never_selects kOnes rng0 stFresh (by decide) (mat1 2)
    (mat1 3)⟩
